import Mathlib

/-!
Shallow embedding of the Sales Assistant MCP server
(`mcp_server/server.py` and `mcp_server/services/service_manager.py`).

External collaborators (Gmail, OpenAI, Salesforce SDK clients) are modelled
as records of oracle functions returning `Except String α`: `.error e`
stands for the client call raising a Python exception whose `str(e)` is `e`,
`.ok v` for a normal return.  All dictionaries the core code reads with
`.get(key, default)` are modelled as structures of `Option` fields.
-/

namespace SalesAssistant

/-- An email message dict as produced by `gmail.get_email` / consumed by the
workflow: the core reads `email["id"]`, `email["subject"]`, `email["from"]`,
`email["body"]` and `email.get("thread_id")`.  `fromAddr` embeds the
`"from"` key (`from` is a Lean keyword). -/
structure EmailMessage where
  id : String
  subject : String
  fromAddr : String
  body : String
  thread_id : Option String
  deriving DecidableEq

/-- The analysis dict returned by `openai.analyze_email`.  The core reads
only `analysis.get("summary", "")`; the remaining keys (type, key_points,
sentiment, priority, suggested_action) are opaque to it and omitted. -/
structure AnalysisResult where
  summary : Option String
  deriving DecidableEq

/-- The customer-info dict returned by `openai.extract_customer_info`.  The
core reads `name`, `email`, `phone`, `company` via `.get`; a missing key is
`none`. -/
structure CustomerInfo where
  name : Option String
  email : Option String
  phone : Option String
  company : Option String
  deriving DecidableEq

/-- The `lead_data` dict built in step 4 of `process_sales_workflow` and
passed to `salesforce.create_lead`, fields in the source dict-literal
order. -/
structure LeadRecord where
  first_name : String
  last_name : String
  email : String
  company : String
  phone : Option String
  description : String
  lead_source : String
  deriving DecidableEq

/-- The dict returned by `salesforce.create_lead`: the code reads
`result["id"]` and `result["url"]`. -/
structure LeadResult where
  id : String
  url : String
  deriving DecidableEq

/-- A contact dict returned by `salesforce.search_contact`; passed through
unchanged by the tool. -/
structure ContactRecord where
  id : String
  name : String
  email : String
  account_name : String
  deriving DecidableEq

/-- Helper for `pySplit`: walk the characters, accumulating the current
token (reversed) and emitting it at each whitespace boundary. -/
def pySplitAux (cs : List Char) (acc : List Char) : List String :=
  match cs with
  | [] => if acc.isEmpty then [] else [⟨acc.reverse⟩]
  | c :: rest =>
    if c.isWhitespace then
      if acc.isEmpty then pySplitAux rest []
      else ⟨acc.reverse⟩ :: pySplitAux rest []
    else pySplitAux rest (c :: acc)

/-- Python `str.split()` with no separator: split on whitespace runs,
dropping empty pieces (so `"".split()` and `"  ".split()` are `[]`). -/
def pySplit (s : String) : List String :=
  pySplitAux s.data []

/-- Python `lst[-1]` on a list known nonempty (here guarded by
`len(...) > 1`): the last element. -/
def pyLast (x : String) (xs : List String) : String :=
  xs.getLastD x

/-- The `lead_data` derivation of step 4 of `process_sales_workflow`
(server.py lines 353-361).  `customer_info.get("name", "").split()[0]`
raises `IndexError` when the split is empty, which the embedding returns as
`.error`; otherwise every field is total. -/
def deriveLeadData (customer_info : CustomerInfo) (analysis : AnalysisResult)
    (email : EmailMessage) : Except String LeadRecord :=
  match pySplit (customer_info.name.getD "") with
  | [] => .error "IndexError: list index out of range"
  | t :: ts =>
    .ok
      { first_name := t
        last_name := if (t :: ts).length > 1 then pyLast t ts else "Unknown"
        email := customer_info.email.getD email.fromAddr
        company := customer_info.company.getD "Unknown"
        phone := customer_info.phone
        description := analysis.summary.getD ""
        lead_source := "Email" }

/-- The oracle for the Gmail client: the three methods the server calls.
`send_email` takes (to, subject, body, thread_id). -/
structure GmailClient where
  fetch_unread_emails : Nat → Except String (List EmailMessage)
  get_email : String → Except String EmailMessage
  send_email : String → String → String → Option String → Except String String

/-- The oracle for the OpenAI client: `analyze_email (content, type)` and
`extract_customer_info (content)`. -/
structure OpenAIClient where
  analyze_email : String → String → Except String AnalysisResult
  extract_customer_info : String → Except String CustomerInfo

/-- The oracle for the Salesforce client. -/
structure SalesforceClient where
  create_lead : LeadRecord → Except String LeadResult
  search_contact : String → Except String (List ContactRecord)

/-- `ServiceManager.__init__`: three `Optional` client handles and the
`_initialized` flag (named `inited` here; `initialize` is unavailable as a
Lean identifier). -/
structure ServiceManager where
  gmail : Option GmailClient
  openai : Option OpenAIClient
  salesforce : Option SalesforceClient
  inited : Bool

/-- A fresh `ServiceManager()`. -/
def ServiceManager.new : ServiceManager :=
  { gmail := none, openai := none, salesforce := none, inited := false }

/-- One construction event per successfully constructed external client,
used to count client constructions per process. -/
inductive InitEvent where
  | gmail_constructed
  | openai_constructed
  | salesforce_constructed
  deriving DecidableEq

/-- The environment `ServiceManager.initialize` runs in: the outcome of
constructing each client from ambient credentials, and of the async
`initialize()` calls on the Gmail and Salesforce clients.  (The OpenAI
client has no separate initialize call in the source.) -/
structure InitEnv where
  gmail_construct : Except String GmailClient
  gmail_client_init : GmailClient → Except String Unit
  openai_construct : Except String OpenAIClient
  salesforce_construct : Except String SalesforceClient
  salesforce_client_init : SalesforceClient → Except String Unit

/-- `ServiceManager.initialize` (service_manager.py lines 20-52): no-op when
already initialized; otherwise construct Gmail, OpenAI, Salesforce in that
order, re-raising the first failure (the flag is set only after all three
succeed).  Returns the mutated manager, the construction events, and the
normal/exceptional outcome. -/
def ServiceManager.init (sm : ServiceManager) (env : InitEnv) :
    ServiceManager × List InitEvent × Except String Unit :=
  if sm.inited then (sm, [], .ok ())
  else
    match env.gmail_construct with
    | .error e => (sm, [], .error e)
    | .ok g =>
      let sm1 : ServiceManager := { sm with gmail := some g }
      match env.gmail_client_init g with
      | .error e => (sm1, [.gmail_constructed], .error e)
      | .ok _ =>
        match env.openai_construct with
        | .error e => (sm1, [.gmail_constructed], .error e)
        | .ok o =>
          let sm2 : ServiceManager := { sm1 with openai := some o }
          match env.salesforce_construct with
          | .error e => (sm2, [.gmail_constructed, .openai_constructed], .error e)
          | .ok s =>
            let sm3 : ServiceManager := { sm2 with salesforce := some s }
            match env.salesforce_client_init s with
            | .error e =>
              (sm3, [.gmail_constructed, .openai_constructed, .salesforce_constructed], .error e)
            | .ok _ =>
              ({ sm3 with inited := true },
               [.gmail_constructed, .openai_constructed, .salesforce_constructed], .ok ())

/-- The `if not service_manager: service_manager = ServiceManager(); await
service_manager.initialize()` prologue shared by every tool (e.g. server.py
lines 50-52).  The global is rebound to the (possibly partially
initialized) instance even when initialization raises, because the
assignment precedes the raising `await`. -/
def get_or_create (env : InitEnv) (g : Option ServiceManager) :
    ServiceManager × List InitEvent × Except String Unit :=
  match g with
  | some sm => (sm, [], .ok ())
  | none => ServiceManager.new.init env

/-- `str(e)` for the `AttributeError` raised by calling a method on a `None`
client handle. -/
def attrError (method : String) : String :=
  "AttributeError: NoneType object has no attribute " ++ method

/-- Python attribute access `handle.method` where `handle` is `Optional`:
raises `AttributeError` when the handle is `None`. -/
def getAttr {α : Type} (method : String) : Option α → Except String α
  | some x => .ok x
  | none => .error (attrError method)

/-- Envelope of `fetch_unread_emails`.  The success envelope carries a
`message`, the error envelope an `error`; the absent key is `none`. -/
structure FetchUnreadEnvelope where
  success : Bool
  emails : List EmailMessage
  count : Nat
  message : Option String
  error : Option String
  deriving DecidableEq

/-- The error envelope of `fetch_unread_emails` (server.py lines 63-69). -/
def fetchUnreadFail (e : String) : FetchUnreadEnvelope :=
  { success := false, emails := [], count := 0, message := none, error := some e }

/-- The `fetch_unread_emails` tool (server.py lines 24-69).  Takes the
environment, the current value of the global `service_manager`, and the
`max_results` argument; returns the new global, the client-construction
events, and the response envelope. -/
def fetch_unread_emails (env : InitEnv) (g : Option ServiceManager)
    (max_results : Nat) : Option ServiceManager × List InitEvent × FetchUnreadEnvelope :=
  let sm := (get_or_create env g).1
  let evs := (get_or_create env g).2.1
  let out :=
    match (get_or_create env g).2.2 with
    | .error e => fetchUnreadFail e
    | .ok _ =>
      match getAttr "fetch_unread_emails" sm.gmail with
      | .error e => fetchUnreadFail e
      | .ok gmail =>
        match gmail.fetch_unread_emails max_results with
        | .error e => fetchUnreadFail e
        | .ok emails =>
          { success := true, emails := emails, count := emails.length,
            message := some (toString emails.length ++ "개의 읽지 않은 이메일을 가져왔습니다."),
            error := none }
  (some sm, evs, out)

/-- Envelope of `analyze_email_with_ai`. -/
structure AnalyzeEnvelope where
  success : Bool
  analysis : Option AnalysisResult
  message : Option String
  error : Option String
  deriving DecidableEq

/-- The error envelope of `analyze_email_with_ai` (server.py lines 112-117). -/
def analyzeFail (e : String) : AnalyzeEnvelope :=
  { success := false, analysis := none, message := none, error := some e }

/-- The `analyze_email_with_ai` tool (server.py lines 72-117). -/
def analyze_email_with_ai (env : InitEnv) (g : Option ServiceManager)
    (email_content analysis_type : String) :
    Option ServiceManager × List InitEvent × AnalyzeEnvelope :=
  let sm := (get_or_create env g).1
  let evs := (get_or_create env g).2.1
  let out :=
    match (get_or_create env g).2.2 with
    | .error e => analyzeFail e
    | .ok _ =>
      match getAttr "analyze_email" sm.openai with
      | .error e => analyzeFail e
      | .ok openai =>
        match openai.analyze_email email_content analysis_type with
        | .error e => analyzeFail e
        | .ok analysis =>
          { success := true, analysis := some analysis,
            message := some "이메일 분석이 완료되었습니다.", error := none }
  (some sm, evs, out)

/-- Envelope of `extract_customer_info`. -/
structure ExtractEnvelope where
  success : Bool
  customer_info : Option CustomerInfo
  message : Option String
  error : Option String
  deriving DecidableEq

/-- The error envelope of `extract_customer_info` (server.py lines 158-163). -/
def extractFail (e : String) : ExtractEnvelope :=
  { success := false, customer_info := none, message := none, error := some e }

/-- The `extract_customer_info` tool (server.py lines 120-163). -/
def extract_customer_info (env : InitEnv) (g : Option ServiceManager)
    (email_content : String) :
    Option ServiceManager × List InitEvent × ExtractEnvelope :=
  let sm := (get_or_create env g).1
  let evs := (get_or_create env g).2.1
  let out :=
    match (get_or_create env g).2.2 with
    | .error e => extractFail e
    | .ok _ =>
      match getAttr "extract_customer_info" sm.openai with
      | .error e => extractFail e
      | .ok openai =>
        match openai.extract_customer_info email_content with
        | .error e => extractFail e
        | .ok info =>
          { success := true, customer_info := some info,
            message := some "고객 정보 추출이 완료되었습니다.", error := none }
  (some sm, evs, out)

/-- Envelope of `create_salesforce_lead`. -/
structure CreateLeadEnvelope where
  success : Bool
  lead_id : Option String
  lead_url : Option String
  message : Option String
  error : Option String
  deriving DecidableEq

/-- The error envelope of `create_salesforce_lead` (server.py lines 205-211). -/
def createLeadFail (e : String) : CreateLeadEnvelope :=
  { success := false, lead_id := none, lead_url := none, message := none, error := some e }

/-- The `create_salesforce_lead` tool (server.py lines 166-211). -/
def create_salesforce_lead (env : InitEnv) (g : Option ServiceManager)
    (customer_data : LeadRecord) :
    Option ServiceManager × List InitEvent × CreateLeadEnvelope :=
  let sm := (get_or_create env g).1
  let evs := (get_or_create env g).2.1
  let out :=
    match (get_or_create env g).2.2 with
    | .error e => createLeadFail e
    | .ok _ =>
      match getAttr "create_lead" sm.salesforce with
      | .error e => createLeadFail e
      | .ok salesforce =>
        match salesforce.create_lead customer_data with
        | .error e => createLeadFail e
        | .ok result =>
          { success := true, lead_id := some result.id, lead_url := some result.url,
            message := some ("리드가 생성되었습니다: " ++ result.id), error := none }
  (some sm, evs, out)

/-- Envelope of `search_salesforce_contacts`. -/
structure SearchContactsEnvelope where
  success : Bool
  found : Bool
  contacts : List ContactRecord
  message : Option String
  error : Option String
  deriving DecidableEq

/-- The error envelope of `search_salesforce_contacts` (server.py lines 252-258). -/
def searchContactsFail (e : String) : SearchContactsEnvelope :=
  { success := false, found := false, contacts := [], message := none, error := some e }

/-- The `search_salesforce_contacts` tool (server.py lines 214-258). -/
def search_salesforce_contacts (env : InitEnv) (g : Option ServiceManager)
    (email : String) :
    Option ServiceManager × List InitEvent × SearchContactsEnvelope :=
  let sm := (get_or_create env g).1
  let evs := (get_or_create env g).2.1
  let out :=
    match (get_or_create env g).2.2 with
    | .error e => searchContactsFail e
    | .ok _ =>
      match getAttr "search_contact" sm.salesforce with
      | .error e => searchContactsFail e
      | .ok salesforce =>
        match salesforce.search_contact email with
        | .error e => searchContactsFail e
        | .ok contacts =>
          { success := true, found := contacts.length > 0, contacts := contacts,
            message := some (toString contacts.length ++ "개의 연락처를 찾았습니다."),
            error := none }
  (some sm, evs, out)

/-- Envelope of `send_email_reply`. -/
structure SendReplyEnvelope where
  success : Bool
  message_id : Option String
  message : Option String
  error : Option String
  deriving DecidableEq

/-- The error envelope of `send_email_reply` (server.py lines 298-303). -/
def sendReplyFail (e : String) : SendReplyEnvelope :=
  { success := false, message_id := none, message := none, error := some e }

/-- The `send_email_reply` tool (server.py lines 261-303). -/
def send_email_reply (env : InitEnv) (g : Option ServiceManager)
    (toAddr subject body : String) (thread_id : Option String) :
    Option ServiceManager × List InitEvent × SendReplyEnvelope :=
  let sm := (get_or_create env g).1
  let evs := (get_or_create env g).2.1
  let out :=
    match (get_or_create env g).2.2 with
    | .error e => sendReplyFail e
    | .ok _ =>
      match getAttr "send_email" sm.gmail with
      | .error e => sendReplyFail e
      | .ok gmail =>
        match gmail.send_email toAddr subject body thread_id with
        | .error e => sendReplyFail e
        | .ok message_id =>
          { success := true, message_id := some message_id,
            message := some "이메일이 성공적으로 전송되었습니다.", error := none }
  (some sm, evs, out)

/-- The `WorkflowOutcome` dict returned by `process_sales_workflow`. -/
structure WorkflowOutcome where
  success : Bool
  steps_completed : List String
  lead_id : Option String
  reply_sent : Bool
  message : Option String
  error : Option String
  deriving DecidableEq

/-- The except-block of `process_sales_workflow` (server.py lines 392-399):
`steps_completed` holds whatever had been appended, `lead_id` is always
`None`, `reply_sent` is always `False`. -/
def workflowFail (steps : List String) (e : String) : WorkflowOutcome :=
  { success := false, steps_completed := steps, lead_id := none,
    reply_sent := false, message := none, error := some e }

/-- The fixed reply body template of step 5, with the customer name (default
"고객") interpolated. -/
def replyBody (customer_info : CustomerInfo) : String :=
  "\n        안녕하세요 " ++ customer_info.name.getD "고객" ++
  "님,\n        \n        문의해 주셔서 감사합니다. 귀하의 요청을 확인했으며, \n        담당자가 곧 연락드릴 예정입니다.\n        \n        감사합니다.\n        "

/-- The `process_sales_workflow` tool (server.py lines 306-399): the
five-step pipeline with `steps_completed` appended after each successful
step and the single except-block converting any raise into a failure
outcome. -/
def process_sales_workflow (env : InitEnv) (g : Option ServiceManager)
    (email_id : String) : Option ServiceManager × List InitEvent × WorkflowOutcome :=
  let sm := (get_or_create env g).1
  let evs := (get_or_create env g).2.1
  let out :=
    match (get_or_create env g).2.2 with
    | .error e => workflowFail [] e
    | .ok _ =>
      match getAttr "get_email" sm.gmail with
      | .error e => workflowFail [] e
      | .ok gmail =>
        match gmail.get_email email_id with
        | .error e => workflowFail [] e
        | .ok email =>
          match getAttr "analyze_email" sm.openai with
          | .error e => workflowFail ["email_fetched"] e
          | .ok openai =>
            match openai.analyze_email email.body "customer_inquiry" with
            | .error e => workflowFail ["email_fetched"] e
            | .ok analysis =>
              match openai.extract_customer_info email.body with
              | .error e => workflowFail ["email_fetched", "ai_analysis"] e
              | .ok customer_info =>
                match deriveLeadData customer_info analysis email with
                | .error e =>
                  workflowFail ["email_fetched", "ai_analysis", "customer_extracted"] e
                | .ok lead_data =>
                  match getAttr "create_lead" sm.salesforce with
                  | .error e =>
                    workflowFail ["email_fetched", "ai_analysis", "customer_extracted"] e
                  | .ok salesforce =>
                    match salesforce.create_lead lead_data with
                    | .error e =>
                      workflowFail ["email_fetched", "ai_analysis", "customer_extracted"] e
                    | .ok lead_result =>
                      match gmail.send_email email.fromAddr ("Re: " ++ email.subject)
                          (replyBody customer_info) email.thread_id with
                      | .error e =>
                        workflowFail
                          ["email_fetched", "ai_analysis", "customer_extracted", "lead_created"] e
                      | .ok _ =>
                        { success := true,
                          steps_completed :=
                            ["email_fetched", "ai_analysis", "customer_extracted",
                             "lead_created", "reply_sent"],
                          lead_id := some lead_result.id,
                          reply_sent := true,
                          message := some "영업 워크플로우가 성공적으로 완료되었습니다.",
                          error := none }
  (some sm, evs, out)

/-! Concrete test doubles, mirroring the stub scenario of spec §8. -/

/-- Stub message `{id:"42", from:"a@b.com", subject:"Pricing?", thread_id:"t1"}`. -/
def stubEmail : EmailMessage :=
  { id := "42", subject := "Pricing?", fromAddr := "a@b.com",
    body := "pricing question", thread_id := some "t1" }

/-- Stub analysis `{summary:"Customer asks about pricing"}`. -/
def stubAnalysis : AnalysisResult := { summary := some "Customer asks about pricing" }

/-- Stub customer `{name:"Jane Doe", email:"a@b.com", company:"Acme"}`. -/
def stubCustomer : CustomerInfo :=
  { name := some "Jane Doe", email := some "a@b.com", phone := none, company := some "Acme" }

/-- The lead record the stub scenario derives. -/
def stubLead : LeadRecord :=
  { first_name := "Jane", last_name := "Doe", email := "a@b.com", company := "Acme",
    phone := none, description := "Customer asks about pricing", lead_source := "Email" }

/-- A Gmail stub whose every call succeeds. -/
def stubGmail : GmailClient :=
  { fetch_unread_emails := fun _ => .ok [stubEmail],
    get_email := fun _ => .ok stubEmail,
    send_email := fun _ _ _ _ => .ok "m1" }

/-- An OpenAI stub whose every call succeeds. -/
def stubOpenAI : OpenAIClient :=
  { analyze_email := fun _ _ => .ok stubAnalysis,
    extract_customer_info := fun _ => .ok stubCustomer }

/-- A Salesforce stub returning lead `L1`. -/
def stubSalesforce : SalesforceClient :=
  { create_lead := fun _ => .ok { id := "L1", url := "https://example.com/L1" },
    search_contact := fun _ => .ok [] }

/-- A ready manager holding the three stubs. -/
def stubManager : ServiceManager :=
  { gmail := some stubGmail, openai := some stubOpenAI,
    salesforce := some stubSalesforce, inited := true }

/-- A Gmail double whose every call raises. -/
def downGmail : GmailClient :=
  { fetch_unread_emails := fun _ => .error "gmail down",
    get_email := fun _ => .error "gmail down",
    send_email := fun _ _ _ _ => .error "gmail down" }

/-- An OpenAI double whose every call raises. -/
def downOpenAI : OpenAIClient :=
  { analyze_email := fun _ _ => .error "openai down",
    extract_customer_info := fun _ => .error "openai down" }

/-- A Salesforce double whose every call raises. -/
def downSalesforce : SalesforceClient :=
  { create_lead := fun _ => .error "salesforce down",
    search_contact := fun _ => .error "salesforce down" }

/-- A ready manager holding the three raising doubles. -/
def downManager : ServiceManager :=
  { gmail := some downGmail, openai := some downOpenAI,
    salesforce := some downSalesforce, inited := true }

/-- A Gmail double that fetches normally but raises on `send_email`. -/
def sendFailGmail : GmailClient :=
  { fetch_unread_emails := fun _ => .ok [stubEmail],
    get_email := fun _ => .ok stubEmail,
    send_email := fun _ _ _ _ => .error "smtp down" }

/-- A ready manager where only the reply step (step 5) fails. -/
def sendFailManager : ServiceManager :=
  { stubManager with gmail := some sendFailGmail }

/-- A ready manager where lead creation (step 4) fails. -/
def leadFailManager : ServiceManager :=
  { stubManager with salesforce := some downSalesforce }

/-- An OpenAI double extracting a customer whose name is missing. -/
def emptyNameOpenAI : OpenAIClient :=
  { analyze_email := fun _ _ => .ok stubAnalysis,
    extract_customer_info := fun _ =>
      .ok { name := none, email := some "a@b.com", phone := none, company := some "Acme" } }

/-- A ready manager whose extraction step yields a nameless customer. -/
def emptyNameManager : ServiceManager :=
  { stubManager with openai := some emptyNameOpenAI }

/-- An environment in which all three clients construct successfully. -/
def okInitEnv : InitEnv :=
  { gmail_construct := .ok stubGmail,
    gmail_client_init := fun _ => .ok (),
    openai_construct := .ok stubOpenAI,
    salesforce_construct := .ok stubSalesforce,
    salesforce_client_init := fun _ => .ok () }

/-- An environment in which the Gmail client fails to construct. -/
def gmailFailEnv : InitEnv :=
  { okInitEnv with gmail_construct := .error "no credentials" }

/-- An environment in which the Salesforce client fails to authenticate. -/
def sfFailEnv : InitEnv :=
  { okInitEnv with salesforce_client_init := fun _ => .error "sf auth failed" }

/-! Theorems -/

/-- C1: whenever the service manager is ready and all five steps succeed
(fetch, analyze, extract, lead creation — derivation included — and reply),
`process_sales_workflow` returns `success = true`, `steps_completed` equal
to the exact ordered five-step sequence, `lead_id` equal to the id returned
by the CRM `create_lead` call, and `reply_sent = true`. -/
theorem workflow_full_success (env : InitEnv) (g : Option ServiceManager)
    (gc : GmailClient) (oc : OpenAIClient) (sc : SalesforceClient)
    (email_id : String) (email : EmailMessage) (analysis : AnalysisResult)
    (customer_info : CustomerInfo) (lead_data : LeadRecord) (lead_result : LeadResult)
    (message_id : String)
    (hok : (get_or_create env g).2.2 = .ok ())
    (hg : (get_or_create env g).1.gmail = some gc)
    (ho : (get_or_create env g).1.openai = some oc)
    (hs : (get_or_create env g).1.salesforce = some sc)
    (h1 : gc.get_email email_id = .ok email)
    (h2 : oc.analyze_email email.body "customer_inquiry" = .ok analysis)
    (h3 : oc.extract_customer_info email.body = .ok customer_info)
    (h4 : deriveLeadData customer_info analysis email = .ok lead_data)
    (h5 : sc.create_lead lead_data = .ok lead_result)
    (h6 : gc.send_email email.fromAddr ("Re: " ++ email.subject) (replyBody customer_info)
            email.thread_id = .ok message_id) :
    (process_sales_workflow env g email_id).2.2 =
      { success := true,
        steps_completed := ["email_fetched", "ai_analysis", "customer_extracted",
                            "lead_created", "reply_sent"],
        lead_id := some lead_result.id,
        reply_sent := true,
        message := some "영업 워크플로우가 성공적으로 완료되었습니다.",
        error := none } := by
  simp [process_sales_workflow, getAttr, hok, hg, ho, hs, h1, h2, h3, h4, h5, h6]

/-- Witness for C1: the stub scenario of spec §8 runs all five steps and
reports lead `L1`. -/
theorem workflow_full_success_witness :
    (process_sales_workflow okInitEnv (some stubManager) "42").2.2 =
      { success := true,
        steps_completed := ["email_fetched", "ai_analysis", "customer_extracted",
                            "lead_created", "reply_sent"],
        lead_id := some "L1",
        reply_sent := true,
        message := some "영업 워크플로우가 성공적으로 완료되었습니다.",
        error := none } :=
  workflow_full_success okInitEnv (some stubManager) stubGmail stubOpenAI stubSalesforce
    "42" stubEmail stubAnalysis stubCustomer stubLead
    { id := "L1", url := "https://example.com/L1" } "m1"
    rfl rfl rfl rfl rfl rfl rfl rfl rfl rfl

/-- C4: whenever the extracted name splits into at least one token, the
step-4 lead derivation succeeds with `first_name` the first token,
`last_name` the last token when more than one token exists else "Unknown",
`email` the customer email defaulting to the sender address, `company`
defaulting to "Unknown", `phone` passed through, `description` the analysis
summary, and `lead_source` the constant "Email". -/
theorem lead_derivation_fields (customer_info : CustomerInfo)
    (analysis : AnalysisResult) (email : EmailMessage) (t : String) (ts : List String)
    (h : pySplit (customer_info.name.getD "") = t :: ts) :
    deriveLeadData customer_info analysis email = .ok
      { first_name := t,
        last_name := if ts = [] then "Unknown" else ts.getLastD t,
        email := customer_info.email.getD email.fromAddr,
        company := customer_info.company.getD "Unknown",
        phone := customer_info.phone,
        description := analysis.summary.getD "",
        lead_source := "Email" } := by
  rcases ts with _ | ⟨a, l⟩ <;> simp [deriveLeadData, h, pyLast]

/-- Witness for C4: "Jane Doe" → Jane/Doe with the stub analysis and
message filling the remaining fields. -/
theorem lead_derivation_fields_witness :
    deriveLeadData stubCustomer stubAnalysis stubEmail = .ok stubLead := by
  have h := lead_derivation_fields stubCustomer stubAnalysis stubEmail "Jane" ["Doe"] rfl
  simpa [stubLead] using h

/-- C3 (code bug): when the extracted customer has a missing or empty name,
the step-4 derivation does raise (`"".split()[0]` is an IndexError) instead
of applying a safe fallback; the workflow's catch-all then reports the run
failed after three steps. -/
theorem empty_name_derivation_raises :
    deriveLeadData { name := none, email := some "a@b.com", phone := none,
                     company := some "Acme" } stubAnalysis stubEmail
      = .error "IndexError: list index out of range"
  ∧ deriveLeadData { name := some "", email := some "a@b.com", phone := none,
                     company := some "Acme" } stubAnalysis stubEmail
      = .error "IndexError: list index out of range"
  ∧ (process_sales_workflow okInitEnv (some emptyNameManager) "42").2.2 =
      workflowFail ["email_fetched", "ai_analysis", "customer_extracted"]
        "IndexError: list index out of range" :=
  ⟨rfl, rfl, rfl⟩

/-- C5: whenever the service manager is ready and step 1 (fetch by id)
fails, the workflow returns `success = false`, `steps_completed = []`,
`lead_id = None`, `reply_sent = false`, with the error recorded. -/
theorem workflow_fetch_failure (env : InitEnv) (g : Option ServiceManager)
    (gc : GmailClient) (email_id e : String)
    (hok : (get_or_create env g).2.2 = .ok ())
    (hg : (get_or_create env g).1.gmail = some gc)
    (h1 : gc.get_email email_id = .error e) :
    (process_sales_workflow env g email_id).2.2 =
      { success := false, steps_completed := [], lead_id := none,
        reply_sent := false, message := none, error := some e } := by
  simp [process_sales_workflow, getAttr, workflowFail, hok, hg, h1]

/-- Witness for C5: a run against the raising Gmail double. -/
theorem workflow_fetch_failure_witness :
    (process_sales_workflow okInitEnv (some downManager) "42").2.2 =
      { success := false, steps_completed := [], lead_id := none,
        reply_sent := false, message := none, error := some "gmail down" } :=
  workflow_fetch_failure okInitEnv (some downManager) downGmail "42" "gmail down"
    rfl rfl rfl

/-- C6: whenever steps 1-3 succeed and step 4 (lead creation, whether the
derivation raise or the CRM call) fails, the workflow returns exactly the
three step names and `lead_id = None`. -/
theorem workflow_lead_creation_failure (env : InitEnv) (g : Option ServiceManager)
    (gc : GmailClient) (oc : OpenAIClient) (sc : SalesforceClient)
    (email_id : String) (email : EmailMessage) (analysis : AnalysisResult)
    (customer_info : CustomerInfo) (e : String)
    (hok : (get_or_create env g).2.2 = .ok ())
    (hg : (get_or_create env g).1.gmail = some gc)
    (ho : (get_or_create env g).1.openai = some oc)
    (hs : (get_or_create env g).1.salesforce = some sc)
    (h1 : gc.get_email email_id = .ok email)
    (h2 : oc.analyze_email email.body "customer_inquiry" = .ok analysis)
    (h3 : oc.extract_customer_info email.body = .ok customer_info)
    (h4 : deriveLeadData customer_info analysis email = .error e
          ∨ ∃ lead_data, deriveLeadData customer_info analysis email = .ok lead_data
              ∧ sc.create_lead lead_data = .error e) :
    (process_sales_workflow env g email_id).2.2 =
      { success := false,
        steps_completed := ["email_fetched", "ai_analysis", "customer_extracted"],
        lead_id := none, reply_sent := false, message := none, error := some e } := by
  rcases h4 with h4 | ⟨lead_data, h4, h5⟩
  · simp [process_sales_workflow, getAttr, workflowFail, hok, hg, ho, hs, h1, h2, h3, h4]
  · simp [process_sales_workflow, getAttr, workflowFail, hok, hg, ho, hs, h1, h2, h3, h4, h5]

/-- Witness for C6: a run in which the CRM double raises. -/
theorem workflow_lead_creation_failure_witness :
    (process_sales_workflow okInitEnv (some leadFailManager) "42").2.2 =
      { success := false,
        steps_completed := ["email_fetched", "ai_analysis", "customer_extracted"],
        lead_id := none, reply_sent := false, message := none,
        error := some "salesforce down" } :=
  workflow_lead_creation_failure okInitEnv (some leadFailManager) stubGmail stubOpenAI
    downSalesforce "42" stubEmail stubAnalysis stubCustomer "salesforce down"
    rfl rfl rfl rfl rfl rfl rfl (Or.inr ⟨stubLead, rfl, rfl⟩)

/-- C2 counterexample: in the run where steps 1-4 succeed (the CRM returned
lead "L1") and only the reply step fails, the outcome's `lead_id` is `none`
— not `some "L1"` as the claim states — because the except-block of
`process_sales_workflow` always returns `lead_id = None`. -/
theorem workflow_reply_failure_drops_lead_id :
    (process_sales_workflow okInitEnv (some sendFailManager) "42").2.2.steps_completed
      = ["email_fetched", "ai_analysis", "customer_extracted", "lead_created"]
  ∧ (process_sales_workflow okInitEnv (some sendFailManager) "42").2.2.lead_id = none
  ∧ (process_sales_workflow okInitEnv (some sendFailManager) "42").2.2.lead_id ≠ some "L1" :=
  ⟨rfl, rfl, by decide⟩

/-- C2 (amended): for every run in which some step fails, the outcome has
`success = false`, `steps_completed` exactly the steps that finished before
the failure, `reply_sent = false`, `error` the raised exception's message,
and `lead_id = None` in every case — also when step 4 already finished
(the created lead's id is discarded by the except-block).  One conjunct per
failure point; `workflowFail steps e` is the outcome with `success = false`,
that `steps_completed`, `lead_id = none`, `reply_sent = false` and
`error = some e`.  One conjunct per failure point, the step-4 derivation
raise (an IndexError inside lead creation) and the step-4 CRM raise
covered separately. -/
theorem workflow_step_failure_outcomes (env : InitEnv) (g : Option ServiceManager)
    (gc : GmailClient) (oc : OpenAIClient) (sc : SalesforceClient) (email_id : String)
    (hok : (get_or_create env g).2.2 = .ok ())
    (hg : (get_or_create env g).1.gmail = some gc)
    (ho : (get_or_create env g).1.openai = some oc)
    (hs : (get_or_create env g).1.salesforce = some sc) :
    (∀ e, gc.get_email email_id = .error e →
      (process_sales_workflow env g email_id).2.2 = workflowFail [] e)
  ∧ (∀ email e, gc.get_email email_id = .ok email →
      oc.analyze_email email.body "customer_inquiry" = .error e →
      (process_sales_workflow env g email_id).2.2 = workflowFail ["email_fetched"] e)
  ∧ (∀ email analysis e, gc.get_email email_id = .ok email →
      oc.analyze_email email.body "customer_inquiry" = .ok analysis →
      oc.extract_customer_info email.body = .error e →
      (process_sales_workflow env g email_id).2.2 =
        workflowFail ["email_fetched", "ai_analysis"] e)
  ∧ (∀ email analysis customer_info e, gc.get_email email_id = .ok email →
      oc.analyze_email email.body "customer_inquiry" = .ok analysis →
      oc.extract_customer_info email.body = .ok customer_info →
      deriveLeadData customer_info analysis email = .error e →
      (process_sales_workflow env g email_id).2.2 =
        workflowFail ["email_fetched", "ai_analysis", "customer_extracted"] e)
  ∧ (∀ email analysis customer_info lead_data e, gc.get_email email_id = .ok email →
      oc.analyze_email email.body "customer_inquiry" = .ok analysis →
      oc.extract_customer_info email.body = .ok customer_info →
      deriveLeadData customer_info analysis email = .ok lead_data →
      sc.create_lead lead_data = .error e →
      (process_sales_workflow env g email_id).2.2 =
        workflowFail ["email_fetched", "ai_analysis", "customer_extracted"] e)
  ∧ (∀ email analysis customer_info lead_data lead_result e,
      gc.get_email email_id = .ok email →
      oc.analyze_email email.body "customer_inquiry" = .ok analysis →
      oc.extract_customer_info email.body = .ok customer_info →
      deriveLeadData customer_info analysis email = .ok lead_data →
      sc.create_lead lead_data = .ok lead_result →
      gc.send_email email.fromAddr ("Re: " ++ email.subject) (replyBody customer_info)
        email.thread_id = .error e →
      (process_sales_workflow env g email_id).2.2 =
        workflowFail ["email_fetched", "ai_analysis", "customer_extracted", "lead_created"] e) := by
  refine ⟨?_, ?_, ?_, ?_, ?_, ?_⟩
  · intro e h1
    simp [process_sales_workflow, getAttr, hok, hg, h1]
  · intro email e h1 h2
    simp [process_sales_workflow, getAttr, hok, hg, ho, h1, h2]
  · intro email analysis e h1 h2 h3
    simp [process_sales_workflow, getAttr, hok, hg, ho, h1, h2, h3]
  · intro email analysis customer_info e h1 h2 h3 h4
    simp [process_sales_workflow, getAttr, hok, hg, ho, h1, h2, h3, h4]
  · intro email analysis customer_info lead_data e h1 h2 h3 h4 h5
    simp [process_sales_workflow, getAttr, hok, hg, ho, hs, h1, h2, h3, h4, h5]
  · intro email analysis customer_info lead_data lead_result e h1 h2 h3 h4 h5 h6
    simp [process_sales_workflow, getAttr, hok, hg, ho, hs, h1, h2, h3, h4, h5, h6]

/-- Witness for amended C2: the reply step fails against `sendFailManager`;
four steps are recorded and `lead_id` is `none`. -/
theorem workflow_step_failure_outcomes_witness :
    (process_sales_workflow okInitEnv (some sendFailManager) "42").2.2 =
      workflowFail ["email_fetched", "ai_analysis", "customer_extracted", "lead_created"]
        "smtp down" :=
  (workflow_step_failure_outcomes okInitEnv (some sendFailManager) sendFailGmail
      stubOpenAI stubSalesforce "42" rfl rfl rfl rfl).2.2.2.2.2
    stubEmail stubAnalysis stubCustomer stubLead
    { id := "L1", url := "https://example.com/L1" } "smtp down"
    rfl rfl rfl rfl rfl rfl

/-- C7: each of the six single-purpose tools converts every exception of
its underlying client call — and every initialization failure — into its
envelope with `success = false`, the error message recorded, and all
operation-specific data fields at their empty/null defaults (the
`*Fail` envelopes), never propagating the exception.  One independently
quantified conjunct per tool and failure source, so each applies to a run
in which only that one call raises. -/
theorem tool_error_envelopes :
    (∀ (env : InitEnv) (sm : ServiceManager) (gc : GmailClient) (n : Nat) (e : String),
      sm.gmail = some gc → gc.fetch_unread_emails n = .error e →
      (fetch_unread_emails env (some sm) n).2.2 = fetchUnreadFail e)
  ∧ (∀ (env : InitEnv) (sm : ServiceManager) (oc : OpenAIClient)
        (content analysis_type e : String),
      sm.openai = some oc → oc.analyze_email content analysis_type = .error e →
      (analyze_email_with_ai env (some sm) content analysis_type).2.2 = analyzeFail e)
  ∧ (∀ (env : InitEnv) (sm : ServiceManager) (oc : OpenAIClient) (content e : String),
      sm.openai = some oc → oc.extract_customer_info content = .error e →
      (extract_customer_info env (some sm) content).2.2 = extractFail e)
  ∧ (∀ (env : InitEnv) (sm : ServiceManager) (sc : SalesforceClient)
        (lead : LeadRecord) (e : String),
      sm.salesforce = some sc → sc.create_lead lead = .error e →
      (create_salesforce_lead env (some sm) lead).2.2 = createLeadFail e)
  ∧ (∀ (env : InitEnv) (sm : ServiceManager) (sc : SalesforceClient) (em e : String),
      sm.salesforce = some sc → sc.search_contact em = .error e →
      (search_salesforce_contacts env (some sm) em).2.2 = searchContactsFail e)
  ∧ (∀ (env : InitEnv) (sm : ServiceManager) (gc : GmailClient)
        (toA subj body e : String) (tid : Option String),
      sm.gmail = some gc → gc.send_email toA subj body tid = .error e →
      (send_email_reply env (some sm) toA subj body tid).2.2 = sendReplyFail e)
  ∧ (∀ (env0 : InitEnv) (n : Nat) (e0 : String),
      (ServiceManager.new.init env0).2.2 = .error e0 →
      (fetch_unread_emails env0 none n).2.2 = fetchUnreadFail e0)
  ∧ (∀ (env0 : InitEnv) (content analysis_type e0 : String),
      (ServiceManager.new.init env0).2.2 = .error e0 →
      (analyze_email_with_ai env0 none content analysis_type).2.2 = analyzeFail e0)
  ∧ (∀ (env0 : InitEnv) (content e0 : String),
      (ServiceManager.new.init env0).2.2 = .error e0 →
      (extract_customer_info env0 none content).2.2 = extractFail e0)
  ∧ (∀ (env0 : InitEnv) (lead : LeadRecord) (e0 : String),
      (ServiceManager.new.init env0).2.2 = .error e0 →
      (create_salesforce_lead env0 none lead).2.2 = createLeadFail e0)
  ∧ (∀ (env0 : InitEnv) (em e0 : String),
      (ServiceManager.new.init env0).2.2 = .error e0 →
      (search_salesforce_contacts env0 none em).2.2 = searchContactsFail e0)
  ∧ (∀ (env0 : InitEnv) (toA subj body e0 : String) (tid : Option String),
      (ServiceManager.new.init env0).2.2 = .error e0 →
      (send_email_reply env0 none toA subj body tid).2.2 = sendReplyFail e0) := by
  refine ⟨?_, ?_, ?_, ?_, ?_, ?_, ?_, ?_, ?_, ?_, ?_, ?_⟩
  · intro env sm gc n e hg h1
    simp [fetch_unread_emails, get_or_create, getAttr, hg, h1]
  · intro env sm oc content analysis_type e ho h2
    simp [analyze_email_with_ai, get_or_create, getAttr, ho, h2]
  · intro env sm oc content e ho h3
    simp [extract_customer_info, get_or_create, getAttr, ho, h3]
  · intro env sm sc lead e hs h4
    simp [create_salesforce_lead, get_or_create, getAttr, hs, h4]
  · intro env sm sc em e hs h5
    simp [search_salesforce_contacts, get_or_create, getAttr, hs, h5]
  · intro env sm gc toA subj body e tid hg h6
    simp [send_email_reply, get_or_create, getAttr, hg, h6]
  · intro env0 n e0 h0
    simp [fetch_unread_emails, get_or_create, h0]
  · intro env0 content analysis_type e0 h0
    simp [analyze_email_with_ai, get_or_create, h0]
  · intro env0 content e0 h0
    simp [extract_customer_info, get_or_create, h0]
  · intro env0 lead e0 h0
    simp [create_salesforce_lead, get_or_create, h0]
  · intro env0 em e0 h0
    simp [search_salesforce_contacts, get_or_create, h0]
  · intro env0 toA subj body e0 tid h0
    simp [send_email_reply, get_or_create, h0]

/-- Witness for C7: creating a lead against a manager whose only failing
client is Salesforce (Gmail and OpenAI healthy) yields the uniform failure
envelope. -/
theorem tool_error_envelopes_witness :
    (create_salesforce_lead okInitEnv (some leadFailManager) stubLead).2.2 =
      createLeadFail "salesforce down" :=
  tool_error_envelopes.2.2.2.1 okInitEnv leadFailManager downSalesforce stubLead
    "salesforce down" rfl rfl

/-- C8: after one successful initialization the directory is ready, the
three clients were each constructed exactly once, and every further
`initialize` call and every further tool prologue (`get_or_create`) returns
the very same instance with no further construction events. -/
theorem service_directory_idempotent (env : InitEnv) (sm : ServiceManager)
    (evs : List InitEvent)
    (h : ServiceManager.new.init env = (sm, evs, .ok ())) :
    sm.inited = true
  ∧ evs = [.gmail_constructed, .openai_constructed, .salesforce_constructed]
  ∧ (∀ env2, sm.init env2 = (sm, [], .ok ()))
  ∧ (∀ env2, get_or_create env2 (some sm) = (sm, [], .ok ())) := by
  unfold ServiceManager.init ServiceManager.new at h
  simp only [Bool.false_eq_true, if_false] at h
  cases hg : env.gmail_construct with
  | error e => simp only [hg] at h; simp at h
  | ok g =>
    simp only [hg] at h
    cases hgi : env.gmail_client_init g with
    | error e => simp only [hgi] at h; simp at h
    | ok _ =>
      simp only [hgi] at h
      cases ho : env.openai_construct with
      | error e => simp only [ho] at h; simp at h
      | ok o =>
        simp only [ho] at h
        cases hs : env.salesforce_construct with
        | error e => simp only [hs] at h; simp at h
        | ok s =>
          simp only [hs] at h
          cases hsi : env.salesforce_client_init s with
          | error e => simp only [hsi] at h; simp at h
          | ok _ =>
            simp only [hsi, Prod.mk.injEq] at h
            obtain ⟨hsm, hevs, -⟩ := h
            subst hsm
            subst hevs
            refine ⟨rfl, rfl, ?_, ?_⟩
            · intro env2
              simp [ServiceManager.init]
            · intro env2
              simp [get_or_create]

/-- Witness for C8: the all-ok environment initializes to the stub manager
and a second `get_or_create` returns it untouched. -/
theorem service_directory_idempotent_witness :
    get_or_create okInitEnv (some stubManager) = (stubManager, [], .ok ()) :=
  (service_directory_idempotent okInitEnv stubManager
    [.gmail_constructed, .openai_constructed, .salesforce_constructed] rfl).2.2.2 okInitEnv

/-- Shared helper: when first-time initialization raises, the returned
manager's flag is still false. -/
theorem init_error_not_inited (env : InitEnv) (e : String)
    (h : (ServiceManager.new.init env).2.2 = .error e) :
    (ServiceManager.new.init env).1.inited = false := by
  cases hg : env.gmail_construct with
  | error e1 => simp [ServiceManager.init, ServiceManager.new, hg]
  | ok g =>
    cases hgi : env.gmail_client_init g with
    | error e2 => simp [ServiceManager.init, ServiceManager.new, hg, hgi]
    | ok u =>
      cases ho : env.openai_construct with
      | error e3 => simp [ServiceManager.init, ServiceManager.new, hg, hgi, ho]
      | ok o =>
        cases hs : env.salesforce_construct with
        | error e4 => simp [ServiceManager.init, ServiceManager.new, hg, hgi, ho, hs]
        | ok s =>
          cases hsi : env.salesforce_client_init s with
          | error e5 => simp [ServiceManager.init, ServiceManager.new, hg, hgi, ho, hs, hsi]
          | ok v =>
            simp [ServiceManager.init, ServiceManager.new, hg, hgi, ho, hs, hsi] at h

/-- C9: first-time initialization constructs the clients in the fixed order
Gmail, OpenAI, Salesforce (the event trace is always a prefix of that
order), any error result leaves the flag false, and each client's
construction/initialization failure is surfaced as the directory-level
error with the run aborted exactly there: the trace is truncated at the
failing client and every later handle is still `None` (fail-fast), one
conjunct per failure point. -/
theorem init_fixed_order_fail_fast (env : InitEnv) :
    ((ServiceManager.new.init env).2.1 = []
     ∨ (ServiceManager.new.init env).2.1 = [.gmail_constructed]
     ∨ (ServiceManager.new.init env).2.1 = [.gmail_constructed, .openai_constructed]
     ∨ (ServiceManager.new.init env).2.1
         = [.gmail_constructed, .openai_constructed, .salesforce_constructed])
  ∧ (∀ e, (ServiceManager.new.init env).2.2 = .error e →
      (ServiceManager.new.init env).1.inited = false)
  ∧ (∀ e, env.gmail_construct = .error e →
      ServiceManager.new.init env = (ServiceManager.new, [], .error e))
  ∧ (∀ g e, env.gmail_construct = .ok g → env.gmail_client_init g = .error e →
      ServiceManager.new.init env =
        ({ gmail := some g, openai := none, salesforce := none, inited := false },
         [.gmail_constructed], .error e))
  ∧ (∀ g e, env.gmail_construct = .ok g → env.gmail_client_init g = .ok () →
      env.openai_construct = .error e →
      ServiceManager.new.init env =
        ({ gmail := some g, openai := none, salesforce := none, inited := false },
         [.gmail_constructed], .error e))
  ∧ (∀ g o e, env.gmail_construct = .ok g → env.gmail_client_init g = .ok () →
      env.openai_construct = .ok o → env.salesforce_construct = .error e →
      ServiceManager.new.init env =
        ({ gmail := some g, openai := some o, salesforce := none, inited := false },
         [.gmail_constructed, .openai_constructed], .error e))
  ∧ (∀ g o s e, env.gmail_construct = .ok g → env.gmail_client_init g = .ok () →
      env.openai_construct = .ok o → env.salesforce_construct = .ok s →
      env.salesforce_client_init s = .error e →
      ServiceManager.new.init env =
        ({ gmail := some g, openai := some o, salesforce := some s, inited := false },
         [.gmail_constructed, .openai_constructed, .salesforce_constructed], .error e)) := by
  refine ⟨?_, fun e h => init_error_not_inited env e h, ?_, ?_, ?_, ?_, ?_⟩
  · cases hg : env.gmail_construct with
    | error e1 => simp [ServiceManager.init, ServiceManager.new, hg]
    | ok g =>
      cases hgi : env.gmail_client_init g with
      | error e2 => simp [ServiceManager.init, ServiceManager.new, hg, hgi]
      | ok u =>
        cases ho : env.openai_construct with
        | error e3 => simp [ServiceManager.init, ServiceManager.new, hg, hgi, ho]
        | ok o =>
          cases hs : env.salesforce_construct with
          | error e4 => simp [ServiceManager.init, ServiceManager.new, hg, hgi, ho, hs]
          | ok s =>
            cases hsi : env.salesforce_client_init s with
            | error e5 =>
              simp [ServiceManager.init, ServiceManager.new, hg, hgi, ho, hs, hsi]
            | ok v => simp [ServiceManager.init, ServiceManager.new, hg, hgi, ho, hs, hsi]
  · intro e hg
    simp [ServiceManager.init, ServiceManager.new, hg]
  · intro g e hg hgi
    simp [ServiceManager.init, ServiceManager.new, hg, hgi]
  · intro g e hg hgi ho
    simp [ServiceManager.init, ServiceManager.new, hg, hgi, ho]
  · intro g o e hg hgi ho hs
    simp [ServiceManager.init, ServiceManager.new, hg, hgi, ho, hs]
  · intro g o s e hg hgi ho hs hsi
    simp [ServiceManager.init, ServiceManager.new, hg, hgi, ho, hs, hsi]

/-- Witness for C9: with the Salesforce authentication failing (the last
client in the order), initialization surfaces that error with all three
construction events recorded and the flag still false. -/
theorem init_fixed_order_fail_fast_witness :
    ServiceManager.new.init sfFailEnv =
      ({ gmail := some stubGmail, openai := some stubOpenAI,
         salesforce := some stubSalesforce, inited := false },
       [.gmail_constructed, .openai_constructed, .salesforce_constructed],
       .error "sf auth failed") :=
  (init_fixed_order_fail_fast sfFailEnv).2.2.2.2.2.2 stubGmail stubOpenAI stubSalesforce
    "sf auth failed" rfl rfl rfl rfl rfl

/-- C10: after a failed first initialization the global keeps the
partially-initialized instance: its flag is false, yet every later
`get_or_create` sees a non-`None` global and returns it at once —
initialization is never re-attempted, no client is ever constructed again —
and a tool then calls through the still-`None` client handle, producing the
AttributeError envelope. -/
theorem stale_global_after_init_failure (env : InitEnv) (e : String)
    (h : (ServiceManager.new.init env).2.2 = .error e) :
    (ServiceManager.new.init env).1.inited = false
  ∧ (∀ env2, get_or_create env2 (some (ServiceManager.new.init env).1)
      = ((ServiceManager.new.init env).1, [], .ok ()))
  ∧ (∀ env2 n, (fetch_unread_emails env2 (some (ServiceManager.new.init env).1) n).1
      = some (ServiceManager.new.init env).1
    ∧ (fetch_unread_emails env2 (some (ServiceManager.new.init env).1) n).2.1 = [])
  ∧ (∀ env2 n, (ServiceManager.new.init env).1.gmail = none →
      (fetch_unread_emails env2 (some (ServiceManager.new.init env).1) n).2.2
        = fetchUnreadFail (attrError "fetch_unread_emails")) := by
  refine ⟨init_error_not_inited env e h, fun env2 => rfl, ?_, ?_⟩
  · intro env2 n
    exact ⟨rfl, rfl⟩
  · intro env2 n hnone
    simp [fetch_unread_emails, get_or_create, getAttr, hnone]

/-- Witness for C10: after the Gmail-construction failure, a later fetch
against the stale global returns the AttributeError envelope. -/
theorem stale_global_after_init_failure_witness :
    (fetch_unread_emails okInitEnv (some (ServiceManager.new.init gmailFailEnv).1) 10).2.2
      = fetchUnreadFail (attrError "fetch_unread_emails") :=
  (stale_global_after_init_failure gmailFailEnv "no credentials" rfl).2.2.2 okInitEnv 10 rfl

end SalesAssistant
